import Mathlib

/-!
Shallow embedding of the SATOSA request router (src/satosa/routing.py).

The router dispatches inbound request paths across three registries
(frontends, backends, micro services), each mapping a module name to its
instance and an ordered endpoint table of (regex, handler descriptor)
pairs.  Regular expressions are embedded as opaque matcher functions
String to Bool, standing for the boolean outcome of re.search; handler
descriptors are an opaque type together with a Python truthiness test,
since the source tests them with a bare if.
-/

namespace Satosa

/-- Core of Python str.replace for a non empty needle: scans left to
right, replacing at most cnt non overlapping occurrences.  The fuel is
the length of the scanned list, which bounds the recursion. -/
def replCore (old new : List Char) : Nat → Nat → List Char → List Char
  | 0, _, s => s
  | _ + 1, _, [] => []
  | fuel + 1, cnt, c :: rest =>
    if 0 < cnt && old.isPrefixOf (c :: rest) then
      new ++ replCore old new fuel (cnt - 1) (List.drop old.length (c :: rest))
    else
      c :: replCore old new fuel cnt rest

/-- Python str.replace with an empty needle inserts the replacement at
the first cnt insertion points (before each character and at the end). -/
def replEmptyOld (new : List Char) : Nat → List Char → List Char
  | 0, s => s
  | _ + 1, [] => new
  | cnt + 1, c :: rest => new ++ c :: replEmptyOld new cnt rest

/-- Python s.replace(old, new, cnt). -/
def pyReplaceCnt (s old new : String) (cnt : Nat) : String :=
  if old.data.isEmpty then (replEmptyOld new.data cnt s.data).asString
  else (replCore old.data new.data s.data.length cnt s.data).asString

/-- Python s.replace(old, new), replacing every occurrence. -/
def pyReplaceAll (s old new : String) : String :=
  pyReplaceCnt s old new (s.data.length + 1)

/-- Python s.replace(old, new, 1), replacing the first occurrence. -/
def pyReplace1 (s old new : String) : String :=
  pyReplaceCnt s old new 1

/-- Helper for splitting on a single character, accumulating the current
chunk in reverse. -/
def splitCharsAux (sep : Char) : List Char → List Char → List (List Char)
  | [], acc => [acc.reverse]
  | c :: cs, acc =>
    if c = sep then acc.reverse :: splitCharsAux sep cs []
    else splitCharsAux sep cs (c :: acc)

/-- Python s.split(sep) for a one character separator. -/
def pySplit (s : String) (sep : Char) : List String :=
  (splitCharsAux sep s.data []).map List.asString

/-- Errors the routing code can raise.  SATOSABadContextError and
SATOSANoBoundEndpointError are the declared routing errors; keyError,
valueError and indexError model the corresponding built in Python
exceptions escaping from dict lookups, list.remove and list indexing. -/
inductive PyErr : Type
  | badContext : PyErr
  | noBoundEndpoint : String → PyErr
  | keyError : Option String → PyErr
  | valueError : String → PyErr
  | indexError : PyErr
deriving DecidableEq, Repr

/-- Python list.remove: drops the first occurrence of the value, raising
ValueError when the value is absent. -/
def pyRemove : List String → String → Except PyErr (List String)
  | [], _ => Except.error (PyErr.valueError "list.remove(x): x not in list")
  | x :: xs, y =>
    if x == y then Except.ok xs
    else
      match pyRemove xs y with
      | Except.ok l => Except.ok (x :: l)
      | Except.error e => Except.error e

/-- A module instance, identified by its name attribute. -/
structure Instance : Type where
  name : String
deriving DecidableEq, Repr

/-- One registry entry: the module instance together with the endpoint
table produced by register_endpoints, an ordered list of pairs of a
pattern (the boolean outcome of re.search for the registered regex) and
an opaque handler descriptor. -/
structure ModuleEntry (α : Type) : Type where
  inst : Instance
  endpoints : List ((String → Bool) × α)

/-- The router state after construction: the base URL and the three
registries, kept in insertion order. -/
structure ModuleRouter (α : Type) : Type where
  base_url : String
  frontends : List (ModuleEntry α)
  backends : List (ModuleEntry α)
  micro_services : List (ModuleEntry α)

/-- The request context: path, routing targets and the opaque state
store.  Stored state values are optional strings because the source may
store target_frontend while it is still None. -/
structure Context : Type where
  path : Option String
  target_backend : Option String
  target_frontend : Option String
  target_micro_service : Option String
  state : List (String × Option String)
deriving DecidableEq, Repr

/-- Dict lookup in the context state: some value when the key is
present, none for a KeyError. -/
def stateLookup (s : List (String × Option String)) (k : String) : Option (Option String) :=
  (s.find? (fun kv => kv.1 == k)).map (fun kv => kv.2)

/-- Dict assignment in the context state: overwrite in place when the
key is present, append otherwise. -/
def stateSet (s : List (String × Option String)) (k : String) (v : Option String) :
    List (String × Option String) :=
  match s with
  | [] => [(k, v)]
  | (k0, v0) :: rest =>
    if k0 == k then (k0, v) :: rest else (k0, v0) :: stateSet rest k v

/-- Registry lookup by key, as a Python dict indexing: none models a
KeyError, including indexing with None. -/
def findEntry {α : Type} (mods : List (ModuleEntry α)) (k : Option String) :
    Option (ModuleEntry α) :=
  match k with
  | none => none
  | some n => mods.find? (fun m => m.inst.name == n)

/-- Python membership test name in registry. -/
def anyName {α : Type} (mods : List (ModuleEntry α)) (n : String) : Bool :=
  mods.any (fun m => m.inst.name == n)

/-- The base URL with the scheme stripped, as in
base_url.replace with https scheme then http scheme. -/
def stripScheme (u : String) : String :=
  pyReplaceAll (pyReplaceAll u "https://" "") "http://" ""

/-- The trailing path segment of the raw base URL:
base_url.split on slash, last element. -/
def ctxSeg (u : String) : String :=
  (pySplit u '/').getLastD ""

/-- Test from the source: the scheme stripped base URL contains a slash,
meaning the base URL embeds a context path. -/
def hasCtx (u : String) : Bool :=
  (stripScheme u).data.any (fun c => c == '/')

/-- Context prefix removal as the source performs it inside the endpoint
search: replace every occurrence of the trailing base URL segment by the
empty string, then delete the first slash. -/
def stripCtx {α : Type} (r : ModuleRouter α) (p : String) : String :=
  pyReplace1 (pyReplaceAll p (ctxSeg r.base_url) "") "/" ""

/-- A pattern matches the path under the per pattern policy of the
source: it matches the raw path, or the base URL has a context path and
it matches the stripped path. -/
def matchesEither {α : Type} (r : ModuleRouter α) (pat : String → Bool) (p : String) : Bool :=
  pat p || (hasCtx r.base_url && pat (stripCtx r p))

/-- The loop of _find_registered_endpoint_for_module: for each
registered pattern in order, try the raw path, and on failure, when the
base URL has a context path, try the stripped path; the first pattern
that matches either form yields its descriptor. -/
def findEndpointLoop {α : Type} (r : ModuleRouter α) (p : String) :
    List ((String → Bool) × α) → Option α
  | [] => none
  | (pat, spec) :: rest =>
    if pat p then some spec
    else if hasCtx r.base_url then
      if pat (stripCtx r p) then some spec else findEndpointLoop r p rest
    else findEndpointLoop r p rest

/-- ModuleRouter._find_registered_endpoint_for_module on a path. -/
def find_registered_endpoint_for_module {α : Type} (r : ModuleRouter α) (m : ModuleEntry α)
    (p : String) : Option α :=
  findEndpointLoop r p m.endpoints

/-- ModuleRouter._find_registered_endpoint over a registry: returns the
name and descriptor of the first module whose table search returns a
truthy descriptor; none models the raised UnknownEndpoint, which the
caller catches. -/
def find_registered_endpoint {α : Type} (r : ModuleRouter α) (t : α → Bool) :
    List (ModuleEntry α) → String → Option (String × α)
  | [], _ => none
  | m :: rest, p =>
    match find_registered_endpoint_for_module r m p with
    | some spec =>
      if t spec then some (m.inst.name, spec) else find_registered_endpoint r t rest p
    | none => find_registered_endpoint r t rest p

/-- The path split step of endpoint_routing: split the path on slashes
and, when the base URL has a context path, remove the first occurrence
of its trailing segment with list.remove, which raises ValueError when
the segment is absent. -/
def normSplit {α : Type} (r : ModuleRouter α) (p : String) : Except PyErr (List String) :=
  if hasCtx r.base_url then pyRemove (pySplit p '/') (ctxSeg r.base_url)
  else Except.ok (pySplit p '/')

/-- Lines 181 to 188 of the source: set target_backend on the context
when the candidate names a known backend, otherwise leave the context
untouched. -/
def setTargetBackend {α : Type} (r : ModuleRouter α) (b : String) (ctx : Context) : Context :=
  if anyName r.backends b then { ctx with target_backend := some b } else ctx

/-- ModuleRouter.endpoint_routing.  Returns the chosen descriptor or the
raised error, together with the context as mutated up to that point. -/
def endpoint_routing {α : Type} (r : ModuleRouter α) (t : α → Bool) (ctx : Context) :
    Except PyErr α × Context :=
  match ctx.path with
  | none => (Except.error PyErr.badContext, ctx)
  | some p =>
    match normSplit r p with
    | Except.error e => (Except.error e, ctx)
    | Except.ok [] => (Except.error PyErr.indexError, ctx)
    | Except.ok (backend :: _) =>
      match find_registered_endpoint r t r.frontends p with
      | some (name, spec) =>
        (Except.ok spec, { setTargetBackend r backend ctx with target_frontend := some name })
      | none =>
        match find_registered_endpoint r t r.micro_services p with
        | some (name, spec) =>
          (Except.ok spec,
           { setTargetBackend r backend ctx with target_micro_service := some name })
        | none =>
          if anyName r.backends backend then
            match findEntry r.backends (setTargetBackend r backend ctx).target_backend with
            | some entry =>
              match find_registered_endpoint_for_module r entry p with
              | some spec =>
                if t spec then (Except.ok spec, setTargetBackend r backend ctx)
                else (Except.error (PyErr.noBoundEndpoint p), setTargetBackend r backend ctx)
              | none =>
                (Except.error (PyErr.noBoundEndpoint p), setTargetBackend r backend ctx)
            | none =>
              (Except.error (PyErr.keyError (setTargetBackend r backend ctx).target_backend),
               setTargetBackend r backend ctx)
          else (Except.error (PyErr.noBoundEndpoint p), setTargetBackend r backend ctx)

/-- ModuleRouter.backend_routing: look up the targeted backend, then
record target_frontend under the ROUTER key of the state. -/
def backend_routing {α : Type} (r : ModuleRouter α) (ctx : Context) :
    Except PyErr Instance × Context :=
  match findEntry r.backends ctx.target_backend with
  | none => (Except.error (PyErr.keyError ctx.target_backend), ctx)
  | some entry =>
    (Except.ok entry.inst,
     { ctx with state := stateSet ctx.state "ROUTER" ctx.target_frontend })

/-- ModuleRouter.frontend_routing: read the ROUTER key of the state, set
it as target_frontend, then look up that frontend. -/
def frontend_routing {α : Type} (r : ModuleRouter α) (ctx : Context) :
    Except PyErr Instance × Context :=
  match stateLookup ctx.state "ROUTER" with
  | none => (Except.error (PyErr.keyError (some "ROUTER")), ctx)
  | some v =>
    match findEntry r.frontends v with
    | none => (Except.error (PyErr.keyError v), { ctx with target_frontend := v })
    | some entry => (Except.ok entry.inst, { ctx with target_frontend := v })

/-- A frontend instance as passed to the constructor: its
register_endpoints receives the list of backend names. -/
structure FrontendInst (α : Type) : Type where
  name : String
  register_endpoints : List String → List ((String → Bool) × α)

/-- A backend or micro service instance as passed to the constructor:
its register_endpoints takes no argument. -/
structure ProviderInst (α : Type) : Type where
  name : String
  register_endpoints : List ((String → Bool) × α)

/-- ModuleRouter.__init__: validate the base URL and the frontend and
backend sets, then build the three registries; a missing or empty micro
service sequence yields an empty mapping. -/
def ModuleRouter.init {α : Type} (base_url : Option String) (frontends : List (FrontendInst α))
    (backends : List (ProviderInst α)) (micro_services : Option (List (ProviderInst α))) :
    Except PyErr (ModuleRouter α) :=
  match base_url with
  | none => Except.error (PyErr.valueError "Base URL is mandatory")
  | some u =>
    if u = "" then Except.error (PyErr.valueError "Base URL is mandatory")
    else if frontends.isEmpty || backends.isEmpty then
      Except.error (PyErr.valueError "Need at least one frontend and one backend")
    else
      Except.ok
        { base_url := u
          frontends :=
            frontends.map (fun i =>
              ⟨⟨i.name⟩, i.register_endpoints (backends.map (fun b => b.name))⟩)
          backends := backends.map (fun i => ⟨⟨i.name⟩, i.register_endpoints⟩)
          micro_services :=
            match micro_services with
            | none => []
            | some ms => ms.map (fun i => ⟨⟨i.name⟩, i.register_endpoints⟩) }

/-- Context prefix removal as the specification words it: the trailing
base URL segment is removed from the front of the request path. -/
def stripFromFrontSpec {α : Type} (r : ModuleRouter α) (p : String) : String :=
  if ((ctxSeg r.base_url).data ++ ['/']).isPrefixOf p.data then
    (p.data.drop ((ctxSeg r.base_url).data.length + 1)).asString
  else if p == ctxSeg r.base_url then "" else p

/-- Endpoint search as the specification words it: a first pass tries
every pattern against the raw path, and only if no pattern matched is
the context prefix removed and a second pass run over all patterns. -/
def findTwoPhaseSpec {α : Type} (r : ModuleRouter α) (eps : List ((String → Bool) × α))
    (p : String) : Option α :=
  match eps.findSome? (fun e => if e.1 p then some e.2 else none) with
  | some spec => some spec
  | none =>
    if hasCtx r.base_url then
      eps.findSome? (fun e => if e.1 (stripFromFrontSpec r p) then some e.2 else none)
    else none

/-- Pattern for an anchored literal regex: re.search matches exactly the
whole given string. -/
def patEq (s : String) : String → Bool := fun p => p == s

/-- Python truthiness on handler descriptors embedded as integers. -/
def truthyNat : Nat → Bool := fun n => n != 0

/-- Fixture: a frontend registering a single metadata endpoint. -/
def feMeta : ModuleEntry Nat := ⟨⟨"fe"⟩, [(patEq "metadata", 1)]⟩

/-- Fixture: a backend with an empty endpoint table. -/
def beEmpty : ModuleEntry Nat := ⟨⟨"be"⟩, []⟩

/-- Fixture: a router whose base URL embeds the context segment sub. -/
def rSub : ModuleRouter Nat := ⟨"https://example.com/sub", [feMeta], [beEmpty], []⟩

/-- Fixture: a fresh request context on the given path. -/
def ctxWith (p : String) : Context := ⟨some p, none, none, none, []⟩

/-- Fixture: a module whose table holds an unprefixed and a prefixed
pattern, in that order. -/
def mTwoPats : ModuleEntry Nat := ⟨⟨"m"⟩, [(patEq "a", 1), (patEq "sub/a", 2)]⟩

/-- Fixture: the two pattern module mounted as the only frontend of a
context path router. -/
def rTwoPats : ModuleRouter Nat := ⟨"https://example.com/sub", [mTwoPats], [beEmpty], []⟩

/-- Fixture: first frontend matching the path p. -/
def feOne : ModuleEntry Nat := ⟨⟨"fe1"⟩, [(patEq "p", 1)]⟩

/-- Fixture: second frontend matching the same path p. -/
def feTwo : ModuleEntry Nat := ⟨⟨"fe2"⟩, [(patEq "p", 2)]⟩

/-- Fixture: a router with two frontends whose patterns both match p. -/
def rTwoFes : ModuleRouter Nat := ⟨"https://example.com", [feOne, feTwo], [beEmpty], []⟩

/-- Fixture: a router with one frontend named fe1 and one backend. -/
def rFe1 : ModuleRouter Nat := ⟨"https://example.com", [⟨⟨"fe1"⟩, []⟩], [beEmpty], []⟩

/-- Fixture: a context with no path at all. -/
def ctxNoPath : Context := ⟨none, none, none, none, []⟩

/-- Fixture: the context that initiated a flow through fe1 and be. -/
def ctxFlowStart : Context := ⟨none, some "be", some "fe1", none, []⟩

/-- Fixture: the fresh callback context carrying the state written by
backend_routing for the flow started by ctxFlowStart. -/
def ctxFlowBack : Context := ⟨none, none, none, none, [("ROUTER", some "fe1")]⟩

/-- Fixture: a context targeting a backend name with no registration. -/
def ctxBadBackend : Context := ⟨none, some "nope", none, none, []⟩

/-- Fixture: a frontend instance as handed to the constructor. -/
def feInstSample : FrontendInst Nat := ⟨"fe1", fun _ => []⟩

/-- Fixture: a backend instance as handed to the constructor. -/
def beInstSample : ProviderInst Nat := ⟨"be", []⟩

/-- Fixture: an absent micro service sequence for the constructor. -/
def msNone : Option (List (ProviderInst Nat)) := none

deriving instance DecidableEq for Except

theorem findEndpointLoop_cons {α : Type} (r : ModuleRouter α) (p : String)
    (pat : String → Bool) (spec : α) (rest : List ((String → Bool) × α)) :
    findEndpointLoop r p ((pat, spec) :: rest) =
      if matchesEither r pat p then some spec else findEndpointLoop r p rest := by
  cases hp : pat p <;> cases hc : hasCtx r.base_url <;> cases hs : pat (stripCtx r p) <;>
    simp [findEndpointLoop, matchesEither, hp, hc, hs]

theorem findEndpointLoop_eq_none {α : Type} (r : ModuleRouter α) (p : String)
    (eps : List ((String → Bool) × α))
    (h : ∀ e ∈ eps, matchesEither r e.1 p = false) :
    findEndpointLoop r p eps = none := by
  induction eps with
  | nil => rfl
  | cons e rest ih =>
    obtain ⟨pat, spec⟩ := e
    rw [findEndpointLoop_cons]
    have hm : matchesEither r pat p = false := h (pat, spec) (by simp)
    rw [hm]
    simp only [Bool.false_eq_true, if_false]
    exact ih (fun e he => h e (by simp [he]))

theorem findEndpointLoop_first {α : Type} (r : ModuleRouter α) (p : String)
    (pre : List ((String → Bool) × α)) (pat : String → Bool) (spec : α)
    (post : List ((String → Bool) × α))
    (hpre : ∀ e ∈ pre, matchesEither r e.1 p = false)
    (hm : matchesEither r pat p = true) :
    findEndpointLoop r p (pre ++ (pat, spec) :: post) = some spec := by
  induction pre with
  | nil => rw [List.nil_append, findEndpointLoop_cons, hm]; rfl
  | cons e rest ih =>
    obtain ⟨pat0, spec0⟩ := e
    rw [List.cons_append, findEndpointLoop_cons]
    have h0 : matchesEither r pat0 p = false := hpre (pat0, spec0) (by simp)
    rw [h0]
    simp only [Bool.false_eq_true, if_false]
    exact ih (fun e he => hpre e (by simp [he]))

theorem find_registered_endpoint_skip_none {α : Type} (r : ModuleRouter α) (t : α → Bool)
    (pre : List (ModuleEntry α)) (mods : List (ModuleEntry α)) (p : String)
    (hpre : ∀ m ∈ pre, ∀ e ∈ m.endpoints, matchesEither r e.1 p = false) :
    find_registered_endpoint r t (pre ++ mods) p = find_registered_endpoint r t mods p := by
  induction pre with
  | nil => rfl
  | cons m rest ih =>
    rw [List.cons_append]
    have hm : find_registered_endpoint_for_module r m p = none :=
      findEndpointLoop_eq_none r p m.endpoints (hpre m (by simp))
    simp only [find_registered_endpoint, hm]
    exact ih (fun m hm0 => hpre m (by simp [hm0]))

theorem find_registered_endpoint_here {α : Type} (r : ModuleRouter α) (t : α → Bool)
    (F : ModuleEntry α) (post : List (ModuleEntry α)) (p : String) (spec : α)
    (hF : find_registered_endpoint_for_module r F p = some spec)
    (ht : t spec = true) :
    find_registered_endpoint r t (F :: post) p = some (F.inst.name, spec) := by
  simp only [find_registered_endpoint, hF, ht, if_true]

theorem stateLookup_set (s : List (String × Option String)) (k : String) (v : Option String) :
    stateLookup (stateSet s k v) k = some v := by
  induction s with
  | nil => simp [stateSet, stateLookup]
  | cons kv rest ih =>
    obtain ⟨k0, v0⟩ := kv
    by_cases h : k0 = k
    · subst h
      simp [stateSet, stateLookup]
    · have hb : (k0 == k) = false := by simp [h]
      simp only [stateSet, hb, Bool.false_eq_true, if_false]
      simpa [stateLookup, hb] using ih

theorem pyRemove_error (l : List String) (x : String) (e : PyErr)
    (h : pyRemove l x = Except.error e) :
    e = PyErr.valueError "list.remove(x): x not in list" := by
  induction l with
  | nil =>
    simp only [pyRemove, Except.error.injEq] at h
    exact h.symm
  | cons a rest ih =>
    by_cases hax : (a == x) = true
    · simp [pyRemove, hax] at h
    · simp only [pyRemove, hax, Bool.false_eq_true, if_false] at h
      cases hr : pyRemove rest x with
      | ok l0 => rw [hr] at h; simp at h
      | error e0 =>
        rw [hr] at h
        simp only [Except.error.injEq] at h
        subst h
        exact ih hr

theorem normSplit_error {α : Type} (r : ModuleRouter α) (p : String) (e : PyErr)
    (h : normSplit r p = Except.error e) :
    e = PyErr.valueError "list.remove(x): x not in list" := by
  by_cases hc : hasCtx r.base_url = true
  · simp only [normSplit, hc, if_true] at h
    exact pyRemove_error _ _ _ h
  · simp [normSplit, hc] at h

theorem setTargetBackend_path {α : Type} (r : ModuleRouter α) (b : String) (ctx : Context) :
    (setTargetBackend r b ctx).path = ctx.path := by
  unfold setTargetBackend; split <;> rfl

theorem setTargetBackend_tf {α : Type} (r : ModuleRouter α) (b : String) (ctx : Context) :
    (setTargetBackend r b ctx).target_frontend = ctx.target_frontend := by
  unfold setTargetBackend; split <;> rfl

theorem findEntry_name {α : Type} (mods : List (ModuleEntry α)) (n : String) (m : ModuleEntry α)
    (h : findEntry mods (some n) = some m) : m.inst.name = n := by
  simp only [findEntry] at h
  have := List.find?_some h
  simpa using this

/-- C1: the claim says a request path that omits the embedded context
segment and one that includes it route to the same handler descriptor.
On the code, the path including the segment routes to the frontend
handler, but the path omitting it makes path_split.remove raise an
uncaught ValueError before any matching, so the two calls do not agree:
the claim is right about the intent and the code crashes. -/
theorem c1_unprefixed_path_crashes :
    endpoint_routing rSub truthyNat (ctxWith "metadata") =
      (Except.error (PyErr.valueError "list.remove(x): x not in list"), ctxWith "metadata")
    ∧ endpoint_routing rSub truthyNat (ctxWith "sub/metadata") =
      (Except.ok 1, { ctxWith "sub/metadata" with target_frontend := some "fe" }) := by
  constructor <;> decide

/-- C2: the claim says a request path equal to exactly the context path
segment does not crash and either matches a root registered pattern or
raises the no bound endpoint error.  On the code, path_split becomes
empty after list.remove and path_split zero indexing raises an uncaught
IndexError, which is neither of the specified routing errors. -/
theorem c2_context_segment_only_crashes :
    endpoint_routing rSub truthyNat (ctxWith "sub") =
      (Except.error PyErr.indexError, ctxWith "sub") := by
  decide

/-- C7: the claim says that when no frontend, micro service or backend
pattern matches, endpoint_routing raises the no bound endpoint error
carrying the requested path.  On the code, for a path that omits the
context segment, the unconditional path_split.remove raises an uncaught
ValueError instead: here no table matches the path, yet the result is
the ValueError, not the no bound endpoint error. -/
theorem c7_no_match_crashes_instead :
    find_registered_endpoint rSub truthyNat rSub.frontends "be/page" = none
    ∧ find_registered_endpoint rSub truthyNat rSub.micro_services "be/page" = none
    ∧ find_registered_endpoint_for_module rSub beEmpty "be/page" = none
    ∧ endpoint_routing rSub truthyNat (ctxWith "be/page") =
      (Except.error (PyErr.valueError "list.remove(x): x not in list"), ctxWith "be/page") := by
  refine ⟨by decide, by decide, by decide, by decide⟩

/-- C3 counterexample: the claim reads the search as two global passes,
all patterns against the raw path first, and the context prefix removal
only if no pattern matched the raw path.  On the code the retry is per
pattern: here the second pattern matches the raw path, yet the first
pattern wins through its stripped path retry, so the code search and
the two phase search disagree at this input. -/
theorem c3_counterexample_two_phase :
    find_registered_endpoint_for_module rTwoPats mTwoPats "sub/a" = some 1
    ∧ findTwoPhaseSpec rTwoPats mTwoPats.endpoints "sub/a" = some 2 := by
  constructor <;> decide

/-- C3 amended: within a single endpoint table the two pass policy is
applied per pattern, in registration order: a pattern is tried against
the raw path and, failing that, when the base URL embeds a context
path, against the stripped path, where stripping replaces every
occurrence of the trailing base URL segment and then deletes the first
slash; the first pattern matching either form yields its descriptor,
and if no pattern matches either form the search yields none. -/
theorem c3_per_pattern_two_pass {α : Type} (r : ModuleRouter α) (p : String)
    (eps : List ((String → Bool) × α)) :
    ((∀ e ∈ eps, matchesEither r e.1 p = false) → findEndpointLoop r p eps = none)
    ∧ (∀ pre pat spec post, eps = pre ++ (pat, spec) :: post →
        (∀ e ∈ pre, matchesEither r e.1 p = false) →
        matchesEither r pat p = true →
        findEndpointLoop r p eps = some spec) := by
  constructor
  · exact findEndpointLoop_eq_none r p eps
  · intro pre pat spec post heq hpre hm
    rw [heq]
    exact findEndpointLoop_first r p pre pat spec post hpre hm

/-- C3 amended, witness: the per pattern policy evaluated on the two
pattern fixture, where the first pattern matches only after context
stripping. -/
theorem c3_per_pattern_two_pass_witness :
    findEndpointLoop rTwoPats "sub/a" [(patEq "a", 1), (patEq "sub/a", 2)] = some 1 :=
  (c3_per_pattern_two_pass rTwoPats "sub/a" [(patEq "a", 1), (patEq "sub/a", 2)]).2
    [] (patEq "a") 1 [(patEq "sub/a", 2)] rfl (by simp) (by decide)

/-- C4 counterexample: the claim promises, for every frontend F with a
matching pattern, that target_frontend becomes the name of F and the
descriptor of F is returned.  With two frontends whose patterns both
match the path, the code routes to the first one, so the claim fails
when instantiated at the second frontend, whose pattern does match. -/
theorem c4_counterexample_first_frontend_wins :
    matchesEither rTwoFes (patEq "p") "p" = true
    ∧ endpoint_routing rTwoFes truthyNat (ctxWith "p") =
      (Except.ok 1, { ctxWith "p" with target_frontend := some "fe1" })
    ∧ (endpoint_routing rTwoFes truthyNat (ctxWith "p")).2.target_frontend ≠ some "fe2"
    ∧ (endpoint_routing rTwoFes truthyNat (ctxWith "p")).1 ≠ Except.ok 2 := by
  refine ⟨by decide, by decide, by decide, by decide⟩

/-- C4 amended: if F is the first frontend in registry order any of
whose patterns matches the path raw or context stripped, the first such
pattern of F carries a truthy descriptor, and the backend segment
extraction step succeeds, then endpoint_routing sets target_frontend to
the name of F and returns that descriptor, whatever the backend and
micro service tables declare. -/
theorem c4_first_matching_frontend_routes {α : Type} (r : ModuleRouter α) (t : α → Bool)
    (ctx : Context) (p b : String) (rest : List String)
    (pre post : List (ModuleEntry α)) (F : ModuleEntry α)
    (epre epost : List ((String → Bool) × α)) (pat : String → Bool) (spec : α)
    (hp : ctx.path = some p)
    (hn : normSplit r p = Except.ok (b :: rest))
    (hfr : r.frontends = pre ++ F :: post)
    (hpre : ∀ m ∈ pre, ∀ e ∈ m.endpoints, matchesEither r e.1 p = false)
    (hend : F.endpoints = epre ++ (pat, spec) :: epost)
    (hepre : ∀ e ∈ epre, matchesEither r e.1 p = false)
    (hm : matchesEither r pat p = true)
    (ht : t spec = true) :
    (endpoint_routing r t ctx).1 = Except.ok spec
    ∧ (endpoint_routing r t ctx).2.target_frontend = some F.inst.name := by
  have hF : find_registered_endpoint_for_module r F p = some spec := by
    unfold find_registered_endpoint_for_module
    rw [hend]
    exact findEndpointLoop_first r p epre pat spec epost hepre hm
  have hfind : find_registered_endpoint r t r.frontends p = some (F.inst.name, spec) := by
    rw [hfr, find_registered_endpoint_skip_none r t pre (F :: post) p hpre]
    exact find_registered_endpoint_here r t F post p spec hF ht
  simp only [endpoint_routing, hp, hn, hfind]
  exact ⟨trivial, trivial⟩

/-- C4 amended, witness: on the two frontend fixture the first frontend
is the first match and its descriptor is returned. -/
theorem c4_first_matching_frontend_routes_witness :
    (endpoint_routing rTwoFes truthyNat (ctxWith "p")).1 = Except.ok 1
    ∧ (endpoint_routing rTwoFes truthyNat (ctxWith "p")).2.target_frontend =
      some feOne.inst.name :=
  c4_first_matching_frontend_routes rTwoFes truthyNat (ctxWith "p") "p" "p" [] [] [feTwo]
    feOne [] [] (patEq "p") 1 rfl (by decide) rfl (by simp) rfl (by simp) (by decide) rfl

/-- C5: after backend_routing records the target frontend name into the
ROUTER entry of the state, any fresh context carrying that state makes
frontend_routing set target_frontend to that name and return the
registered frontend instance bearing exactly that name. -/
theorem c5_round_trip {α : Type} (r : ModuleRouter α) (ctx ctx2 : Context) (fn : String)
    (be fe : ModuleEntry α)
    (h1 : ctx.target_frontend = some fn)
    (h2 : findEntry r.backends ctx.target_backend = some be)
    (h3 : findEntry r.frontends (some fn) = some fe)
    (h4 : ctx2.state = (backend_routing r ctx).2.state) :
    (frontend_routing r ctx2).1 = Except.ok fe.inst
    ∧ (frontend_routing r ctx2).2.target_frontend = some fn
    ∧ fe.inst.name = fn := by
  have hst : (backend_routing r ctx).2.state = stateSet ctx.state "ROUTER" (some fn) := by
    simp only [backend_routing, h2, h1]
  have hl : stateLookup ctx2.state "ROUTER" = some (some fn) := by
    rw [h4, hst]
    exact stateLookup_set ctx.state "ROUTER" (some fn)
  simp only [frontend_routing, hl, h3]
  exact ⟨trivial, trivial, findEntry_name r.frontends fn fe h3⟩

/-- C5, witness: the round trip evaluated on the fe1 fixture router. -/
theorem c5_round_trip_witness :
    (frontend_routing rFe1 ctxFlowBack).1 =
      Except.ok (⟨⟨"fe1"⟩, ([] : List ((String → Bool) × Nat))⟩ : ModuleEntry Nat).inst
    ∧ (frontend_routing rFe1 ctxFlowBack).2.target_frontend = some "fe1"
    ∧ (⟨⟨"fe1"⟩, ([] : List ((String → Bool) × Nat))⟩ : ModuleEntry Nat).inst.name = "fe1" :=
  c5_round_trip rFe1 ctxFlowStart ctxFlowBack "fe1" beEmpty ⟨⟨"fe1"⟩, []⟩ rfl rfl rfl rfl

theorem endpoint_routing_some_path_ne_badContext {α : Type} (r : ModuleRouter α)
    (t : α → Bool) (ctx : Context) (p : String) (hp : ctx.path = some p) :
    (endpoint_routing r t ctx).1 ≠ Except.error PyErr.badContext := by
  intro h
  simp only [endpoint_routing, hp] at h
  cases hn : normSplit r p with
  | error e =>
    rw [hn] at h
    have he := normSplit_error r p e hn
    subst he
    simp at h
  | ok l =>
    rw [hn] at h
    cases l with
    | nil => simp at h
    | cons b bs =>
      cases hf : find_registered_endpoint r t r.frontends p with
      | some v =>
        obtain ⟨name, spec⟩ := v
        rw [hf] at h
        simp at h
      | none =>
        rw [hf] at h
        cases hm : find_registered_endpoint r t r.micro_services p with
        | some v =>
          obtain ⟨name, spec⟩ := v
          rw [hm] at h
          simp at h
        | none =>
          rw [hm] at h
          simp only [] at h
          by_cases hb : anyName r.backends b = true
          · simp only [hb, if_true] at h
            repeat' split at h
            all_goals simp_all
          · simp only [hb, if_false] at h
            simp at h

/-- C6: endpoint_routing fails with the bad context error exactly when
the context carries no path, and in that case it returns immediately
with the context untouched, before any normalization, backend selection
or table search. -/
theorem c6_bad_context_iff {α : Type} (r : ModuleRouter α) (t : α → Bool) (ctx : Context) :
    ((endpoint_routing r t ctx).1 = Except.error PyErr.badContext ↔ ctx.path = none)
    ∧ (ctx.path = none → endpoint_routing r t ctx = (Except.error PyErr.badContext, ctx)) := by
  constructor
  · constructor
    · intro h
      cases hp : ctx.path with
      | none => rfl
      | some p => exact absurd h (endpoint_routing_some_path_ne_badContext r t ctx p hp)
    · intro hp
      simp [endpoint_routing, hp]
  · intro hp
    simp [endpoint_routing, hp]

/-- C6, witness: a context without a path fails with the bad context
error and is returned unchanged. -/
theorem c6_bad_context_iff_witness :
    endpoint_routing rFe1 truthyNat ctxNoPath = (Except.error PyErr.badContext, ctxNoPath) :=
  (c6_bad_context_iff rFe1 truthyNat ctxNoPath).2 rfl

theorem isEmpty_false_of_ne_nil {β : Type} (l : List β) (h : l ≠ []) : l.isEmpty = false := by
  cases l with
  | nil => exact absurd rfl h
  | cons a rest => rfl

theorem init_fails_iff {α : Type} (bu : Option String) (fes : List (FrontendInst α))
    (bes : List (ProviderInst α)) (ms : Option (List (ProviderInst α))) :
    (∃ m, ModuleRouter.init bu fes bes ms = Except.error (PyErr.valueError m)) ↔
      (bu = none ∨ bu = some "" ∨ fes = [] ∨ bes = []) := by
  cases bu with
  | none => simp [ModuleRouter.init]
  | some u =>
    by_cases hu : u = ""
    · subst hu
      simp [ModuleRouter.init]
    · by_cases hf : fes = []
      · simp [ModuleRouter.init, hu, hf]
      · by_cases hb : bes = []
        · simp [ModuleRouter.init, hu, hf, hb, isEmpty_false_of_ne_nil fes hf]
        · simp [ModuleRouter.init, hu, hf, hb, isEmpty_false_of_ne_nil fes hf,
            isEmpty_false_of_ne_nil bes hb]

theorem init_ok_micro {α : Type} (bu : Option String) (fes : List (FrontendInst α))
    (bes : List (ProviderInst α)) (ms : Option (List (ProviderInst α))) (r0 : ModuleRouter α)
    (h : ModuleRouter.init bu fes bes ms = Except.ok r0)
    (hms : ms = none ∨ ms = some []) : r0.micro_services = [] := by
  cases bu with
  | none => simp [ModuleRouter.init] at h
  | some u =>
    by_cases hu : u = ""
    · simp [ModuleRouter.init, hu] at h
    · by_cases hne : (fes.isEmpty || bes.isEmpty) = true
      · simp [ModuleRouter.init, hu, hne] at h
      · simp only [ModuleRouter.init, hu, if_false, hne, Bool.not_eq_true,
          Bool.false_eq_true, Except.ok.injEq] at h
        rcases hms with hm | hm <;> subst hm <;> rw [← h] <;> try rfl

/-- C8: ModuleRouter construction fails with a configuration error
exactly when the base URL is absent or empty, the frontend set is
empty, or the backend set is empty; otherwise it succeeds, and an
absent or empty micro service sequence yields an empty micro service
mapping. -/
theorem c8_init_config_errors {α : Type} (bu : Option String) (fes : List (FrontendInst α))
    (bes : List (ProviderInst α)) (ms : Option (List (ProviderInst α))) :
    ((∃ m, ModuleRouter.init bu fes bes ms = Except.error (PyErr.valueError m)) ↔
      (bu = none ∨ bu = some "" ∨ fes = [] ∨ bes = []))
    ∧ (¬(bu = none ∨ bu = some "" ∨ fes = [] ∨ bes = []) →
        ∃ r0, ModuleRouter.init bu fes bes ms = Except.ok r0
          ∧ ((ms = none ∨ ms = some []) → r0.micro_services = [])) := by
  constructor
  · exact init_fails_iff bu fes bes ms
  · intro hcon
    push_neg at hcon
    obtain ⟨h1, h2, h3, h4⟩ := hcon
    obtain ⟨u, rfl⟩ : ∃ u, bu = some u := by
      cases bu with
      | none => exact absurd rfl h1
      | some u => exact ⟨u, rfl⟩
    have hu : ¬u = "" := fun he => h2 (by rw [he])
    have hne : (fes.isEmpty || bes.isEmpty) = true ↔ False := by
      simp [isEmpty_false_of_ne_nil fes h3, isEmpty_false_of_ne_nil bes h4]
    cases hinit : ModuleRouter.init (some u) fes bes ms with
    | error e => simp [ModuleRouter.init, hu, hne] at hinit
    | ok r0 =>
      exact ⟨r0, rfl, fun hms => init_ok_micro (some u) fes bes ms r0 hinit hms⟩

/-- C8, witness: with a base URL, one frontend and one backend but no
micro services, construction succeeds with an empty micro service
mapping, and with an empty frontend set it fails. -/
theorem c8_init_config_errors_witness :
    (∃ r0, ModuleRouter.init (some "https://example.com") [feInstSample] [beInstSample]
        msNone = Except.ok r0
      ∧ (msNone = none ∨ msNone = some [] → r0.micro_services = []))
    ∧ (∃ m, ModuleRouter.init (some "https://example.com") ([] : List (FrontendInst Nat))
        [beInstSample] msNone = Except.error (PyErr.valueError m)) :=
  ⟨(c8_init_config_errors (some "https://example.com") [feInstSample] [beInstSample]
      msNone).2 (by simp),
   (c8_init_config_errors (some "https://example.com") [] [beInstSample] msNone).1.mpr
      (by simp)⟩

/-- C9: frontend_routing propagates a lookup error whenever the state
lacks the ROUTER entry or that entry names no registered frontend; in
those cases the returned outcome is a key error, never a frontend. -/
theorem c9_lookup_error {α : Type} (r : ModuleRouter α) (ctx : Context)
    (h : stateLookup ctx.state "ROUTER" = none ∨
      ∃ v, stateLookup ctx.state "ROUTER" = some v ∧ findEntry r.frontends v = none) :
    ∃ k, (frontend_routing r ctx).1 = Except.error (PyErr.keyError k) := by
  rcases h with h | ⟨v, hv, hfe⟩
  · exact ⟨some "ROUTER", by simp [frontend_routing, h]⟩
  · exact ⟨v, by simp [frontend_routing, hv, hfe]⟩

/-- C9, witness: an empty state makes frontend_routing fail with a key
error. -/
theorem c9_lookup_error_witness :
    ∃ k, (frontend_routing rFe1 ctxNoPath).1 = Except.error (PyErr.keyError k) :=
  c9_lookup_error rFe1 ctxNoPath (Or.inl rfl)

/-- C10: when target_backend names no registered backend, the registry
lookup in backend_routing fails before the continuation state write, so
the call returns the key error with the context, state included, left
exactly as it was. -/
theorem c10_backend_lookup_atomic {α : Type} (r : ModuleRouter α) (ctx : Context)
    (h : findEntry r.backends ctx.target_backend = none) :
    backend_routing r ctx = (Except.error (PyErr.keyError ctx.target_backend), ctx) := by
  simp [backend_routing, h]

/-- C10, witness: an unknown backend name leaves the context unchanged
and yields the key error. -/
theorem c10_backend_lookup_atomic_witness :
    backend_routing rFe1 ctxBadBackend =
      (Except.error (PyErr.keyError (some "nope")), ctxBadBackend) :=
  c10_backend_lookup_atomic rFe1 ctxBadBackend rfl

end Satosa
